import Mathlib

/-!
Shallow embedding of the financial-data extraction engine of CreditLense
(`app/financial_data.py`, class `FinancialDataExtractor`), together with
theorems settling the specification claims about it.

Conventions of the embedding:
* Python strings are Lean `String`s; character scans work on `String.data`.
* Python `float` values are modelled as `ℚ` (every number the engine
  manipulates is produced by exact decimal parsing and field arithmetic).
* Python dicts are association lists in insertion order; a key that the code
  never inserts is simply absent (`lookupKey` returns `none`).
* `datetime.now().year` is passed in as an explicit `currentYear` argument.
* The external text-completion capability (`llm_service.generate_text`) and
  the JSON decoder (`json.loads`) are oracle parameters: `generate_text` is a
  function from provider and prompt to `Except Unit String` (`.error` models a
  raised exception), `json.loads` on a brace-delimited source is a function
  from the source string to `Option Obj` (`none` models `JSONDecodeError`).
-/

namespace CreditLense

/-- Python regex `\w` word character over the ASCII text the engine sees:
letters, digits and underscore. -/
def isWordChar (c : Char) : Bool :=
  c.isAlphanum || c = '_'

/-- Python regex `\s` whitespace over ASCII. -/
def isPySpace (c : Char) : Bool :=
  c = ' ' || c = '\t' || c = '\n' || c = '\r' || c = '\x0b' || c = '\x0c'

/-- Numeric value of a decimal digit character. -/
def digitVal (c : Char) : Nat :=
  c.toNat - '0'.toNat

/-- Decimal reading of a digit run, most significant digit first. -/
def digitsToNat (ds : List Char) : Nat :=
  ds.foldl (fun a c => a * 10 + digitVal c) 0

/-- A `\b` word boundary holds before the scan position when there is no
previous character or the previous character is not a word character
(the character at the position itself is always a digit here). -/
def boundaryBefore : Option Char → Bool
  | none => true
  | some c => !isWordChar c

/-- A `\b` word boundary holds after a match when the input is exhausted or
the next character is not a word character. -/
def boundaryAfter : List Char → Bool
  | [] => true
  | c :: _ => !isWordChar c

/-- One attempted match of `\b(19|20)\d{2}\b` at the head of `cs`, with
`prev` the character before the head.  On success the result is the value of
the *captured group* — `19` or `20`, not the full year — exactly as
`re.findall` with a group returns in `_extract_years`. -/
def yearTokenAt (prev : Option Char) (cs : List Char) : Option Nat :=
  match cs with
  | d1 :: d2 :: d3 :: d4 :: rest =>
    if boundaryBefore prev && ((d1 = '1' && d2 = '9') || (d1 = '2' && d2 = '0'))
        && d3.isDigit && d4.isDigit && boundaryAfter rest then
      some (if d1 = '1' then 19 else 20)
    else
      none
  | _ => none

/-- Left-to-right non-overlapping scan of `re.findall(r'\b(19|20)\d{2}\b', text)`.
`skip` counts positions still covered by the previous 4-character match. -/
def findYearAux : List Char → Option Char → Nat → List Nat
  | [], _, _ => []
  | c :: rest, _, Nat.succ k => findYearAux rest (some c) k
  | c :: rest, prev, 0 =>
    match yearTokenAt prev (c :: rest) with
    | some v => v :: findYearAux rest (some c) 3
    | none => findYearAux rest (some c) 0

/-- All captured-group values of `re.findall(r'\b(19|20)\d{2}\b', text)`. -/
def findYearMatches (cs : List Char) : List Nat :=
  findYearAux cs none 0

/-- Insert into a strictly sorted list, keeping it sorted and duplicate-free. -/
def insertDistinct (x : Nat) : List Nat → List Nat
  | [] => [x]
  | y :: ys =>
    if x = y then y :: ys
    else if x < y then x :: y :: ys
    else y :: insertDistinct x ys

/-- Python `sorted(list(set(l)))`: the ascending list of distinct elements. -/
def dedupSort (l : List Nat) : List Nat :=
  l.foldr insertDistinct []

/-- `FinancialDataExtractor._extract_years`: findall the year pattern (with
its capture-group semantics), drop values above the current year, then
deduplicate and sort ascending. -/
def extractYears (text : String) (currentYear : Nat) : List Nat :=
  dedupSort ((findYearMatches text.data).filter (fun y => y ≤ currentYear))

/-- Literal match of `tok` at the head of `cs`. -/
def matchesAt : List Char → List Char → Bool
  | [], _ => true
  | _ :: _, [] => false
  | t :: ts, c :: cs => t = c && matchesAt ts cs

/-- Index of the first `\b tok \b` occurrence, scanning from position `idx`
with `prev` the character before the scan position. -/
def findTokenFrom (tok : List Char) : List Char → Option Char → Nat → Option Nat
  | [], _, _ => none
  | c :: rest, prev, idx =>
    if boundaryBefore prev && matchesAt tok (c :: rest)
        && boundaryAfter ((c :: rest).drop tok.length) then
      some idx
    else
      findTokenFrom tok rest (some c) (idx + 1)

/-- `FinancialDataExtractor._get_year_context`: find the first standalone
occurrence of the year's decimal digits and return the slice of the text from
500 characters before the match start to 500 characters after its end. -/
def getYearContext (text : String) (year : Nat) : Option (List Char) :=
  let tok := (toString year).data
  match findTokenFrom tok text.data none 0 with
  | none => none
  | some i =>
    let s := i - 500
    let e := min text.data.length (i + tok.length + 500)
    some ((text.data.drop s).take (e - s))

/-- The value captured by `\s+(\d+(\.\d+)?)` at the head of `cs`: at least one
whitespace character, then a maximal digit run, then optionally a dot followed
by at least one digit (the fractional part), read as an exact rational. -/
def parseNumberAfterSpaces (cs : List Char) : Option ℚ :=
  let sp := cs.takeWhile isPySpace
  let cs1 := cs.dropWhile isPySpace
  if sp.isEmpty then none
  else
    let ds := cs1.takeWhile Char.isDigit
    let cs2 := cs1.dropWhile Char.isDigit
    if ds.isEmpty then none
    else
      match cs2 with
      | '.' :: cs3 =>
        let fs := cs3.takeWhile Char.isDigit
        if fs.isEmpty then some (digitsToNat ds : ℚ)
        else some ((digitsToNat ds : ℚ) + (digitsToNat fs : ℚ) / (10 : ℚ) ^ fs.length)
      | _ => some (digitsToNat ds : ℚ)

/-- `re.search(re.escape(item) + r'\s+(\d+(\.\d+)?)', context)`: leftmost
position where the literal label is followed by whitespace and a number. -/
def searchLabelNumber (item : List Char) : List Char → Option ℚ
  | [] => none
  | c :: rest =>
    if matchesAt item (c :: rest) then
      match parseNumberAfterSpaces ((c :: rest).drop item.length) with
      | some q => some q
      | none => searchLabelNumber item rest
    else
      searchLabelNumber item rest

/-- `FinancialDataExtractor._extract_value_for_item`: recompute the year
context (falsy context gives `None`), then search it for the label/value
pattern. -/
def extractValueForItem (text : String) (year : Nat) (item : String) : Option ℚ :=
  match getYearContext text year with
  | none => none
  | some ctx =>
    if ctx.isEmpty then none
    else searchLabelNumber item.data ctx

/-- The inner mapping of one statement category: line-item name to value. -/
abbrev Items := List (String × ℚ)

/-- One year of one statement: category name to its items. -/
abbrev YearData := List (String × Items)

/-- First-match association-list lookup, the meaning of Python dict access
for the dicts the engine builds. -/
def lookupKey {κ α : Type} [DecidableEq κ] (k : κ) : List (κ × α) → Option α
  | [] => none
  | (a, b) :: rest => if k = a then some b else lookupKey k rest

/-- The conditional insert `if v is not None: result[name] = v`. -/
def optEntry (name : String) (v : Option ℚ) : Items :=
  match v with
  | some x => [(name, x)]
  | none => []

/-- The run of conditional inserts a section builder performs for one
category: one `optEntry` per taxonomy item name, in source order. -/
def buildItems (f : String → Option ℚ) : List String → Items
  | [] => []
  | n :: rest => optEntry n (f n) ++ buildItems f rest

/-- Balance-sheet items of category "Current Assets", in source order. -/
def currentAssetItems : List String :=
  ["Cash and Cash Equivalents", "Accounts Receivable", "Inventory",
   "Prepaid Expenses", "Total Current Assets"]

/-- Balance-sheet items of category "Non-Current Assets". -/
def nonCurrentAssetItems : List String :=
  ["Property, Plant and Equipment", "Intangible Assets", "Investments",
   "Total Non-Current Assets"]

/-- Balance-sheet items of category "Current Liabilities". -/
def currentLiabilityItems : List String :=
  ["Accounts Payable", "Short-term Debt", "Accrued Expenses",
   "Total Current Liabilities"]

/-- Balance-sheet items of category "Non-Current Liabilities". -/
def nonCurrentLiabilityItems : List String :=
  ["Long-term Debt", "Deferred Tax Liabilities", "Total Non-Current Liabilities"]

/-- Balance-sheet items of category "Equity". -/
def equityItems : List String :=
  ["Common Stock", "Retained Earnings", "Total Equity"]

/-- Income-statement items of category "Revenue". -/
def revenueItems : List String :=
  ["Revenue", "Sales", "Service Revenue", "Total Revenue"]

/-- Income-statement items of category "Expenses". -/
def expenseItems : List String :=
  ["Cost of Goods Sold", "Operating Expenses",
   "Selling, General and Administrative", "Research and Development",
   "Depreciation and Amortization", "Interest Expense", "Income Tax Expense",
   "Total Expenses"]

/-- Income-statement items of category "Profit". -/
def profitItems : List String :=
  ["Gross Profit", "Operating Income", "Income Before Tax", "Net Income"]

/-- Cash-flow items of category "Operating Activities". -/
def operatingActivityItems : List String :=
  ["Net Income", "Depreciation and Amortization", "Changes in Working Capital",
   "Net Cash from Operating Activities"]

/-- Cash-flow items of category "Investing Activities". -/
def investingActivityItems : List String :=
  ["Capital Expenditures", "Acquisitions", "Investments",
   "Net Cash from Investing Activities"]

/-- Cash-flow items of category "Financing Activities". -/
def financingActivityItems : List String :=
  ["Debt Issuance", "Debt Repayment", "Dividends Paid", "Stock Repurchase",
   "Net Cash from Financing Activities"]

/-- The fixed category/item taxonomy of `_extract_balance_sheet_data`. -/
def balanceSheetTaxonomy : List (String × List String) :=
  [("Current Assets", currentAssetItems),
   ("Non-Current Assets", nonCurrentAssetItems),
   ("Current Liabilities", currentLiabilityItems),
   ("Non-Current Liabilities", nonCurrentLiabilityItems),
   ("Equity", equityItems)]

/-- The fixed category/item taxonomy of `_extract_income_statement_data`. -/
def incomeStatementTaxonomy : List (String × List String) :=
  [("Revenue", revenueItems), ("Expenses", expenseItems), ("Profit", profitItems)]

/-- The fixed category/item taxonomy of `_extract_cash_flow_data`. -/
def cashFlowTaxonomy : List (String × List String) :=
  [("Operating Activities", operatingActivityItems),
   ("Investing Activities", investingActivityItems),
   ("Financing Activities", financingActivityItems)]

/-- One year of a section builder: the category skeleton is created first;
when the year context is falsy the per-item extraction is skipped (the
categories stay empty), otherwise each taxonomy item is tried once and stored
only when a value was found. -/
def buildYearSection (tax : List (String × List String)) (text : String)
    (year : Nat) : YearData :=
  match getYearContext text year with
  | none => tax.map (fun p => (p.fst, ([] : Items)))
  | some ctx =>
    if ctx.isEmpty then tax.map (fun p => (p.fst, ([] : Items)))
    else tax.map (fun p => (p.fst, buildItems (extractValueForItem text year) p.snd))

/-- `FinancialDataExtractor._get_nested_value` on the two-level dicts the
engine builds: follow the category key then the item key. -/
def getNested (d : YearData) (k1 k2 : String) : Option ℚ :=
  match lookupKey k1 d with
  | none => none
  | some items => lookupKey k2 items

/-- Current Ratio operand logic of `_calculate_financial_ratios`. -/
def currentRatioVal (bs : YearData) : Option ℚ :=
  match getNested bs "Current Assets" "Total Current Assets",
      getNested bs "Current Liabilities" "Total Current Liabilities" with
  | some ca, some cl => if cl ≠ 0 then some (ca / cl) else none
  | _, _ => none

/-- Quick Ratio operand logic of `_calculate_financial_ratios`. -/
def quickRatioVal (bs : YearData) : Option ℚ :=
  match getNested bs "Current Assets" "Total Current Assets",
      getNested bs "Current Assets" "Inventory",
      getNested bs "Current Liabilities" "Total Current Liabilities" with
  | some ca, some inv, some cl => if cl ≠ 0 then some ((ca - inv) / cl) else none
  | _, _, _ => none

/-- The running total `total_liabilities`: start at 0 and add each of the two
liability totals when present. -/
def totalLiabilitiesVal (bs : YearData) : ℚ :=
  (getNested bs "Current Liabilities" "Total Current Liabilities").getD 0
    + (getNested bs "Non-Current Liabilities" "Total Non-Current Liabilities").getD 0

/-- The running total `total_assets`: start at 0 and add each of the two
asset totals when present. -/
def totalAssetsVal (bs : YearData) : ℚ :=
  (getNested bs "Current Assets" "Total Current Assets").getD 0
    + (getNested bs "Non-Current Assets" "Total Non-Current Assets").getD 0

/-- Debt-to-Equity logic of `_calculate_financial_ratios`: requires the
liability total to be strictly positive and the equity total present and
nonzero. -/
def debtToEquityVal (bs : YearData) : Option ℚ :=
  match getNested bs "Equity" "Total Equity" with
  | some te =>
    if 0 < totalLiabilitiesVal bs ∧ te ≠ 0 then some (totalLiabilitiesVal bs / te)
    else none
  | none => none

/-- Debt-to-Assets logic of `_calculate_financial_ratios`. -/
def debtToAssetsVal (bs : YearData) : Option ℚ :=
  if 0 < totalLiabilitiesVal bs ∧ 0 < totalAssetsVal bs then
    some (totalLiabilitiesVal bs / totalAssetsVal bs)
  else none

/-- Net Profit Margin logic of `_calculate_financial_ratios`: note the source
stores the plain quotient, with no multiplication by 100. -/
def netProfitMarginVal (istmt : YearData) : Option ℚ :=
  match getNested istmt "Profit" "Net Income",
      getNested istmt "Revenue" "Total Revenue" with
  | some ni, some tr => if tr ≠ 0 then some (ni / tr) else none
  | _, _ => none

/-- Return on Assets logic of `_calculate_financial_ratios`. -/
def returnOnAssetsVal (bs istmt : YearData) : Option ℚ :=
  match getNested istmt "Profit" "Net Income" with
  | some ni => if 0 < totalAssetsVal bs then some (ni / totalAssetsVal bs) else none
  | none => none

/-- Return on Equity logic of `_calculate_financial_ratios`. -/
def returnOnEquityVal (bs istmt : YearData) : Option ℚ :=
  match getNested istmt "Profit" "Net Income",
      getNested bs "Equity" "Total Equity" with
  | some ni, some te => if te ≠ 0 then some (ni / te) else none
  | _, _ => none

/-- One year of `_calculate_financial_ratios`: the three-category skeleton
with each ratio conditionally inserted in source order. -/
def calcRatiosYear (bs istmt : YearData) : YearData :=
  [("Liquidity",
     optEntry "Current Ratio" (currentRatioVal bs)
       ++ optEntry "Quick Ratio" (quickRatioVal bs)),
   ("Solvency",
     optEntry "Debt-to-Equity Ratio" (debtToEquityVal bs)
       ++ optEntry "Debt-to-Assets Ratio" (debtToAssetsVal bs)),
   ("Profitability",
     optEntry "Net Profit Margin" (netProfitMarginVal istmt)
       ++ optEntry "Return on Assets" (returnOnAssetsVal bs istmt)
       ++ optEntry "Return on Equity" (returnOnEquityVal bs istmt))]

/-- The normalized output dict of `extract_all_data`, with its five fixed
keys as fields. -/
structure ExtractionResult where
  years : List Nat
  balance_sheet : List (Nat × YearData)
  income_statement : List (Nat × YearData)
  cash_flow : List (Nat × YearData)
  ratios : List (Nat × YearData)
deriving DecidableEq, Repr

/-- `FinancialDataExtractor.extract_all_data`: the deterministic path —
years, the three statement sections keyed by each located year, then the
ratios computed from the stored balance-sheet and income-statement data. -/
def extractAllData (text : String) (currentYear : Nat) : ExtractionResult :=
  let ys := extractYears text currentYear
  let bs := ys.map (fun y => (y, buildYearSection balanceSheetTaxonomy text y))
  let istmt := ys.map (fun y => (y, buildYearSection incomeStatementTaxonomy text y))
  let cf := ys.map (fun y => (y, buildYearSection cashFlowTaxonomy text y))
  let rat := ys.map (fun y =>
    (y, calcRatiosYear ((lookupKey y bs).getD []) ((lookupKey y istmt).getD [])))
  { years := ys, balance_sheet := bs, income_statement := istmt,
    cash_flow := cf, ratios := rat }

/-- `FinancialDataExtractor._calculate_ratio`, the per-name helper: unlike
the pipeline's `_calculate_financial_ratios`, its Net Profit Margin is the
quotient multiplied by 100, and its Debt-to-Equity raises (hence returns
`None`) when the current-liabilities total is absent. -/
def calcRatio (name : String) (bs istmt : YearData) : Option ℚ :=
  if name = "Current Ratio" then currentRatioVal bs
  else if name = "Quick Ratio" then quickRatioVal bs
  else if name = "Debt-to-Equity Ratio" then
    match getNested bs "Current Liabilities" "Total Current Liabilities" with
    | none => none
    | some cl =>
      let tl := cl +
        (getNested bs "Non-Current Liabilities" "Total Non-Current Liabilities").getD 0
      match getNested bs "Equity" "Total Equity" with
      | some te => if te ≠ 0 then some (tl / te) else none
      | none => none
  else if name = "Net Profit Margin" then
    match getNested istmt "Profit" "Net Income",
        getNested istmt "Revenue" "Total Revenue" with
    | some ni, some tr => if tr ≠ 0 then some (ni / tr * 100) else none
    | _, _ => none
  else none

/-- A JSON value as decoded from an LLM response. -/
inductive JVal where
  | num (q : ℚ)
  | str (s : String)
  | boolean (b : Bool)
  | null
  | arr (elems : List JVal)
  | obj (fields : List (String × JVal))

/-- A decoded JSON object (the dict `json.loads` yields for a source that
starts with an opening brace): its fields in order. -/
abbrev Obj := List (String × JVal)

/-- Whether a JSON value is a list (Python `isinstance(v, list)`). -/
def JVal.isArr : JVal → Bool
  | .arr _ => true
  | _ => false

/-- Whether a JSON value is a dict (Python `isinstance(v, dict)`). -/
def JVal.isObj : JVal → Bool
  | .obj _ => true
  | _ => false

/-- The top-level keys `_validate_financial_data` requires. -/
def requiredKeys : List String :=
  ["years", "balance_sheet", "income_statement", "cash_flow"]

/-- `FinancialDataExtractor._validate_financial_data`: the four required keys
must be present, `years` must be a list, and the three section keys must be
dicts.  No check mentions a `ratios` key. -/
def validateFinancialData (fd : Obj) : Bool :=
  requiredKeys.all (fun k => (lookupKey k fd).isSome)
    && (match lookupKey "years" fd with
        | some v => v.isArr
        | none => false)
    && (["balance_sheet", "income_statement", "cash_flow"].all (fun k =>
          match lookupKey k fd with
          | some v => v.isObj
          | none => false))

/-- Index of the first occurrence of `c`. -/
def firstIdxOf (c : Char) : List Char → Option Nat
  | [] => none
  | x :: rest => if x = c then some 0 else (firstIdxOf c rest).map (· + 1)

/-- Index of the last occurrence of `c`. -/
def lastIdxOf (c : Char) (cs : List Char) : Option Nat :=
  match firstIdxOf c cs.reverse with
  | none => none
  | some r => some (cs.length - 1 - r)

/-- `re.search(r'({[\s\S]*})', response)`: the greedy brace-delimited
substring — from the first opening brace to the last closing brace, when the
latter does not precede the former. -/
def findJsonSubstring (resp : String) : Option String :=
  match firstIdxOf '\x7b' resp.data, lastIdxOf '\x7d' resp.data with
  | some i, some j =>
    if i ≤ j then some (String.mk ((resp.data.drop i).take (j + 1 - i)))
    else none
  | _, _ => none

/-- `FinancialDataExtractor._improved_parse_llm_response`, with `json.loads`
as the `decode` oracle: locate the brace-delimited JSON substring, decode it,
and validate its structure; `none` models each of the raised exceptions (no
JSON found, decode error, invalid structure), all of which the caller catches
by falling back. -/
def parseLLMResponse (decode : String → Option Obj) (resp : String) : Option Obj :=
  match findJsonSubstring resp with
  | none => none
  | some s =>
    match decode s with
    | none => none
    | some fd => if validateFinancialData fd then some fd else none

/-- The value the parser stores into the instance's `ratios` accumulator:
`financial_data.get("ratios", {})`. -/
def ratiosStateAfterParse (fd : Obj) : JVal :=
  match lookupKey "ratios" fd with
  | some v => v
  | none => JVal.obj []

/-- Modelled prefix of the prompt literal built by
`_create_improved_extraction_prompt`; the full multi-page literal is not
reproduced because no claim inspects the prompt content, only that the prompt
is this fixed template followed by the whole PDF text. -/
def extractionPromptTemplate : String :=
  "You are a financial data extraction expert."

/-- `FinancialDataExtractor._create_improved_extraction_prompt`: the fixed
template followed by the PDF text. -/
def createExtractionPrompt (text : String) : String :=
  extractionPromptTemplate ++ text

/-- JSON encoding of one category's items. -/
def itemsToJVal (items : Items) : JVal :=
  JVal.obj (items.map (fun p => (p.fst, JVal.num p.snd)))

/-- JSON encoding of one year of a section. -/
def yearDataToJVal (d : YearData) : JVal :=
  JVal.obj (d.map (fun p => (p.fst, itemsToJVal p.snd)))

/-- JSON encoding of a section, its integer year keys rendered in decimal. -/
def sectionToJVal (s : List (Nat × YearData)) : JVal :=
  JVal.obj (s.map (fun p => (toString p.fst, yearDataToJVal p.snd)))

/-- The dict `extract_all_data` returns, viewed as a JSON object: its five
keys in source order. -/
def resultToObj (r : ExtractionResult) : Obj :=
  [("years", JVal.arr (r.years.map (fun y => JVal.num (y : ℚ)))),
   ("balance_sheet", sectionToJVal r.balance_sheet),
   ("income_statement", sectionToJVal r.income_statement),
   ("cash_flow", sectionToJVal r.cash_flow),
   ("ratios", sectionToJVal r.ratios)]

/-- The body of `extract_data_with_llm`, with an explicit recursion bound:
the source recurses at most once (the retry sets the provider to "openai" and
the retry guard requires the provider to differ from "openai"), so a bound of
2 makes the zero-fuel branch unreachable.  `gen` is the text-completion
oracle (`.error` models a raised exception); exceptions from generation and
from parsing fall back to the deterministic path, a validation failure after
a successful parse triggers the single alternate-provider retry when
available and otherwise falls back. -/
def extractDataWithLLMGo (gen : Option String → String → Except Unit String)
    (decode : String → Option Obj) (avail : List String) (text : String)
    (currentYear : Nat) : Nat → Option String → Obj
  | 0, _ => resultToObj (extractAllData text currentYear)
  | Nat.succ fuel, provider =>
    match gen provider (createExtractionPrompt text) with
    | Except.error _ => resultToObj (extractAllData text currentYear)
    | Except.ok resp =>
      match parseLLMResponse decode resp with
      | none => resultToObj (extractAllData text currentYear)
      | some fd =>
        if validateFinancialData fd then fd
        else if provider ≠ some "openai" ∧ "openai" ∈ avail then
          extractDataWithLLMGo gen decode avail text currentYear fuel (some "openai")
        else resultToObj (extractAllData text currentYear)

/-- `FinancialDataExtractor.extract_data_with_llm`. -/
def extractDataWithLLM (gen : Option String → String → Except Unit String)
    (decode : String → Option Obj) (avail : List String) (text : String)
    (currentYear : Nat) (provider : Option String) : Obj :=
  extractDataWithLLMGo gen decode avail text currentYear 2 provider

/-! ## Helper lemmas about the embedded dictionaries. -/

theorem lookupKey_append {κ α : Type} [DecidableEq κ] (k : κ)
    (l₁ l₂ : List (κ × α)) :
    lookupKey k (l₁ ++ l₂) =
      (match lookupKey k l₁ with
       | some v => some v
       | none => lookupKey k l₂) := by
  induction l₁ with
  | nil => simp [lookupKey]
  | cons p rest ih =>
    obtain ⟨a, b⟩ := p
    by_cases h : k = a <;> simp [lookupKey, h, ih]

theorem lookupKey_optEntry_self (n : String) (v : Option ℚ) :
    lookupKey n (optEntry n v) = v := by
  cases v <;> simp [optEntry, lookupKey]

theorem lookupKey_optEntry_ne {n m : String} (h : n ≠ m) (v : Option ℚ) :
    lookupKey n (optEntry m v) = none := by
  cases v <;> simp [optEntry, lookupKey, h]

theorem lookup_optE2_first {n1 n2 : String} (h : n1 ≠ n2) (v1 v2 : Option ℚ) :
    lookupKey n1 (optEntry n1 v1 ++ optEntry n2 v2) = v1 := by
  cases v1 <;> cases v2 <;> simp [optEntry, lookupKey, h]

theorem lookup_optE2_second {n1 n2 : String} (h : n2 ≠ n1) (v1 v2 : Option ℚ) :
    lookupKey n2 (optEntry n1 v1 ++ optEntry n2 v2) = v2 := by
  cases v1 <;> cases v2 <;> simp [optEntry, lookupKey, h]

theorem lookup_optE3_first {n1 n2 n3 : String} (h2 : n1 ≠ n2) (h3 : n1 ≠ n3)
    (v1 v2 v3 : Option ℚ) :
    lookupKey n1 (optEntry n1 v1 ++ optEntry n2 v2 ++ optEntry n3 v3) = v1 := by
  cases v1 <;> cases v2 <;> cases v3 <;> simp [optEntry, lookupKey, h2, h3]

theorem lookup_optE3_second {n1 n2 n3 : String} (h1 : n2 ≠ n1) (h3 : n2 ≠ n3)
    (v1 v2 v3 : Option ℚ) :
    lookupKey n2 (optEntry n1 v1 ++ optEntry n2 v2 ++ optEntry n3 v3) = v2 := by
  cases v1 <;> cases v2 <;> cases v3 <;> simp [optEntry, lookupKey, h1, h3]

theorem lookup_optE3_third {n1 n2 n3 : String} (h1 : n3 ≠ n1) (h2 : n3 ≠ n2)
    (v1 v2 v3 : Option ℚ) :
    lookupKey n3 (optEntry n1 v1 ++ optEntry n2 v2 ++ optEntry n3 v3) = v3 := by
  cases v1 <;> cases v2 <;> cases v3 <;> simp [optEntry, lookupKey, h1, h2]

theorem ratiosYear_currentRatio (bs istmt : YearData) :
    getNested (calcRatiosYear bs istmt) "Liquidity" "Current Ratio"
      = currentRatioVal bs := by
  show (match lookupKey "Liquidity" (calcRatiosYear bs istmt) with
        | none => none
        | some items => lookupKey "Current Ratio" items) = _
  rw [calcRatiosYear, lookupKey, if_pos rfl]
  exact lookup_optE2_first (by decide) _ _

theorem ratiosYear_quickRatio (bs istmt : YearData) :
    getNested (calcRatiosYear bs istmt) "Liquidity" "Quick Ratio"
      = quickRatioVal bs := by
  show (match lookupKey "Liquidity" (calcRatiosYear bs istmt) with
        | none => none
        | some items => lookupKey "Quick Ratio" items) = _
  rw [calcRatiosYear, lookupKey, if_pos rfl]
  exact lookup_optE2_second (by decide) _ _

theorem ratiosYear_debtToEquity (bs istmt : YearData) :
    getNested (calcRatiosYear bs istmt) "Solvency" "Debt-to-Equity Ratio"
      = debtToEquityVal bs := by
  show (match lookupKey "Solvency" (calcRatiosYear bs istmt) with
        | none => none
        | some items => lookupKey "Debt-to-Equity Ratio" items) = _
  rw [calcRatiosYear, lookupKey, if_neg (by decide), lookupKey, if_pos rfl]
  exact lookup_optE2_first (by decide) _ _

theorem ratiosYear_debtToAssets (bs istmt : YearData) :
    getNested (calcRatiosYear bs istmt) "Solvency" "Debt-to-Assets Ratio"
      = debtToAssetsVal bs := by
  show (match lookupKey "Solvency" (calcRatiosYear bs istmt) with
        | none => none
        | some items => lookupKey "Debt-to-Assets Ratio" items) = _
  rw [calcRatiosYear, lookupKey, if_neg (by decide), lookupKey, if_pos rfl]
  exact lookup_optE2_second (by decide) _ _

theorem ratiosYear_netProfitMargin (bs istmt : YearData) :
    getNested (calcRatiosYear bs istmt) "Profitability" "Net Profit Margin"
      = netProfitMarginVal istmt := by
  show (match lookupKey "Profitability" (calcRatiosYear bs istmt) with
        | none => none
        | some items => lookupKey "Net Profit Margin" items) = _
  rw [calcRatiosYear, lookupKey, if_neg (by decide), lookupKey,
    if_neg (by decide), lookupKey, if_pos rfl]
  exact lookup_optE3_first (by decide) (by decide) _ _ _

theorem ratiosYear_returnOnAssets (bs istmt : YearData) :
    getNested (calcRatiosYear bs istmt) "Profitability" "Return on Assets"
      = returnOnAssetsVal bs istmt := by
  show (match lookupKey "Profitability" (calcRatiosYear bs istmt) with
        | none => none
        | some items => lookupKey "Return on Assets" items) = _
  rw [calcRatiosYear, lookupKey, if_neg (by decide), lookupKey,
    if_neg (by decide), lookupKey, if_pos rfl]
  exact lookup_optE3_second (by decide) (by decide) _ _ _

theorem ratiosYear_returnOnEquity (bs istmt : YearData) :
    getNested (calcRatiosYear bs istmt) "Profitability" "Return on Equity"
      = returnOnEquityVal bs istmt := by
  show (match lookupKey "Profitability" (calcRatiosYear bs istmt) with
        | none => none
        | some items => lookupKey "Return on Equity" items) = _
  rw [calcRatiosYear, lookupKey, if_neg (by decide), lookupKey,
    if_neg (by decide), lookupKey, if_pos rfl]
  exact lookup_optE3_third (by decide) (by decide) _ _ _

theorem extractValueForItem_context_falsy (text : String) (year : Nat)
    (item : String)
    (h : getYearContext text year = none
      ∨ ∃ ctx, getYearContext text year = some ctx ∧ ctx.isEmpty = true) :
    extractValueForItem text year item = none := by
  rcases h with h | ⟨ctx, h, he⟩ <;> simp [extractValueForItem, h]
  intro hne
  exact absurd he (by simp [hne])

theorem mem_buildItems_keys (f : String → Option ℚ) (names : List String)
    (n : String) :
    n ∈ (buildItems f names).map Prod.fst ↔ n ∈ names ∧ (f n).isSome := by
  induction names with
  | nil => simp [buildItems]
  | cons m rest ih =>
    by_cases hnm : n = m
    · subst hnm
      cases hf : f n <;> simp [buildItems, optEntry, hf, ih]
    · cases hf : f m <;> simp [buildItems, optEntry, hf, ih, hnm]

theorem buildYearSection_category_keys (tax : List (String × List String))
    (text : String) (year : Nat) :
    (buildYearSection tax text year).map Prod.fst = tax.map Prod.fst := by
  unfold buildYearSection
  cases h : getYearContext text year with
  | none => simp
  | some ctx => by_cases he : ctx.isEmpty <;> simp [he]

theorem buildYearSection_item_keys (tax : List (String × List String))
    (text : String) (year : Nat) (cat : String) (names : List String)
    (hmem : (cat, names) ∈ tax) :
    ∃ items, (cat, items) ∈ buildYearSection tax text year
      ∧ ∀ n, n ∈ items.map Prod.fst
          ↔ n ∈ names ∧ (extractValueForItem text year n).isSome := by
  unfold buildYearSection
  cases h : getYearContext text year with
  | none =>
    refine ⟨[], List.mem_map.mpr ⟨(cat, names), hmem, rfl⟩, fun n => ?_⟩
    rw [extractValueForItem_context_falsy text year n (Or.inl h)]
    simp
  | some ctx =>
    by_cases he : ctx.isEmpty
    · simp only [he, if_true]
      refine ⟨[], List.mem_map.mpr ⟨(cat, names), hmem, rfl⟩, fun n => ?_⟩
      rw [extractValueForItem_context_falsy text year n (Or.inr ⟨ctx, h, he⟩)]
      simp
    · simp only [he, if_false]
      exact ⟨buildItems (extractValueForItem text year) names,
        List.mem_map.mpr ⟨(cat, names), hmem, rfl⟩,
        fun n => mem_buildItems_keys _ _ _⟩

theorem lookupKey_map_fst_self {α : Type} (g : Nat → Nat × α)
    (hg : ∀ z, (g z).fst = z) (ys : List Nat) (y : Nat) (h : y ∈ ys) :
    (lookupKey y (ys.map g)).isSome = true := by
  induction ys with
  | nil => cases h
  | cons a rest ih =>
    have hga : g a = (a, (g a).snd) := Prod.ext (hg a) rfl
    by_cases hy : y = a
    · subst hy
      rw [List.map_cons, hga]
      simp [lookupKey]
    · rcases List.mem_cons.mp h with h1 | h2
      · exact absurd h1 hy
      · rw [List.map_cons, hga]
        simp only [lookupKey, if_neg hy]
        exact ih h2

theorem extractAllData_years (text : String) (cy : Nat) :
    (extractAllData text cy).years = extractYears text cy := rfl

theorem extractAllData_balance_sheet (text : String) (cy : Nat) :
    (extractAllData text cy).balance_sheet
      = (extractYears text cy).map
          (fun y => (y, buildYearSection balanceSheetTaxonomy text y)) := rfl

theorem extractAllData_income_statement (text : String) (cy : Nat) :
    (extractAllData text cy).income_statement
      = (extractYears text cy).map
          (fun y => (y, buildYearSection incomeStatementTaxonomy text y)) := rfl

theorem extractAllData_cash_flow (text : String) (cy : Nat) :
    (extractAllData text cy).cash_flow
      = (extractYears text cy).map
          (fun y => (y, buildYearSection cashFlowTaxonomy text y)) := rfl

theorem extractAllData_ratios (text : String) (cy : Nat) :
    (extractAllData text cy).ratios
      = (extractYears text cy).map
          (fun y => (y, calcRatiosYear
            ((lookupKey y ((extractYears text cy).map
              (fun z => (z, buildYearSection balanceSheetTaxonomy text z)))).getD [])
            ((lookupKey y ((extractYears text cy).map
              (fun z => (z, buildYearSection incomeStatementTaxonomy text z)))).getD []))) :=
  rfl

theorem extractDataWithLLMGo_cases
    (gen : Option String → String → Except Unit String)
    (decode : String → Option Obj) (avail : List String) (text : String)
    (cy : Nat) :
    ∀ (fuel : Nat) (provider : Option String),
      extractDataWithLLMGo gen decode avail text cy fuel provider
          = resultToObj (extractAllData text cy)
        ∨ validateFinancialData
            (extractDataWithLLMGo gen decode avail text cy fuel provider) = true := by
  intro fuel
  induction fuel with
  | zero => intro provider; exact Or.inl rfl
  | succ n ih =>
    intro provider
    rw [extractDataWithLLMGo]
    split
    · exact Or.inl rfl
    · split
      · exact Or.inl rfl
      · split
        · rename_i hv
          exact Or.inr hv
        · split
          · exact ih (some "openai")
          · exact Or.inl rfl

/-! ## Concrete data used by the claim theorems. -/

/-- The spec's scenario text for the deterministic path. -/
def scenarioText : String :=
  "Year ended 2022. Total Current Assets 1,200. Total Current Liabilities 600."

/-- The balance-sheet year data of the repository's `test_calculate_ratio`. -/
def testBalanceSheet : YearData :=
  [("Current Assets", [("Total Current Assets", 1000)]),
   ("Current Liabilities", [("Total Current Liabilities", 500)]),
   ("Non-Current Liabilities", [("Total Non-Current Liabilities", 1500)]),
   ("Equity", [("Total Equity", 2000)])]

/-- The income-statement year data of the repository's `test_calculate_ratio`. -/
def testIncomeStatement : YearData :=
  [("Revenue", [("Total Revenue", 5000)]), ("Profit", [("Net Income", 1000)])]

/-- A balance sheet with both liability line items missing and a present,
nonzero Total Equity. -/
def equityOnlyBS : YearData :=
  [("Equity", [("Total Equity", 2000)])]

/-- A schema-valid LLM response carrying exactly the four required keys. -/
def llmJsonResponse : String :=
  "\x7b\"years\": [], \"balance_sheet\": \x7b\x7d, \"income_statement\": \x7b\x7d, \"cash_flow\": \x7b\x7d\x7d"

/-- The object `json.loads` yields for `llmJsonResponse`. -/
def llmFourKeyObj : Obj :=
  [("years", JVal.arr []), ("balance_sheet", JVal.obj []),
   ("income_statement", JVal.obj []), ("cash_flow", JVal.obj [])]

/-- A text-completion oracle that always answers with `llmJsonResponse`. -/
def llmGen : Option String → String → Except Unit String :=
  fun _ _ => Except.ok llmJsonResponse

/-- A decode oracle consistent with `json.loads` on `llmJsonResponse`. -/
def llmDecode : String → Option Obj :=
  fun s => if s = llmJsonResponse then some llmFourKeyObj else none

/-! ## Claim theorems. -/

/-- C1: `extract_data_with_llm` never raises for input-data or
provider-failure reasons — on every oracle behaviour it resolves to either
the deterministic result or a schema-validated LLM object — and when every
invocation of the text-completion capability raises, it returns exactly what
`extract_all_data` returns on the same text. -/
theorem extract_with_llm_total_and_falls_back :
    ∀ (gen : Option String → String → Except Unit String)
      (decode : String → Option Obj) (avail : List String) (text : String)
      (cy : Nat) (provider : Option String),
      (extractDataWithLLM gen decode avail text cy provider
          = resultToObj (extractAllData text cy)
        ∨ validateFinancialData
            (extractDataWithLLM gen decode avail text cy provider) = true)
      ∧ ((∀ p q, gen p q = Except.error ()) →
          extractDataWithLLM gen decode avail text cy provider
            = resultToObj (extractAllData text cy)) := by
  intro gen decode avail text cy provider
  constructor
  · exact extractDataWithLLMGo_cases gen decode avail text cy 2 provider
  · intro hfail
    show extractDataWithLLMGo gen decode avail text cy 2 provider = _
    rw [extractDataWithLLMGo, hfail]

/-- C1 witness: with an always-failing completion oracle the result is the
deterministic result. -/
theorem extract_with_llm_total_and_falls_back_witness :
    extractDataWithLLM (fun _ _ => Except.error ()) (fun _ => none) [] "2020" 2026 none
      = resultToObj (extractAllData "2020" 2026) :=
  (extract_with_llm_total_and_falls_back (fun _ _ => Except.error ())
    (fun _ => none) [] "2020" 2026 none).2 (fun _ _ => rfl)

/-- C2: evaluating the Year Locator at the repository's own unit-test input
("Financial data for years 2020, 2021, and 2022.", current year 2026) returns
`[20]`, because `re.findall` applied to a pattern with a capture group
returns the captured century prefixes, not the full years; the claimed
result (and the one `test_extract_years` asserts) is `[2020, 2021, 2022]`,
and no 3-most-recent truncation exists in the code either. -/
theorem extract_years_returns_century_prefixes :
    extractYears "Financial data for years 2020, 2021, and 2022." 2026 = [20]
      ∧ extractYears "Financial data for years 2020, 2021, and 2022." 2026
          ≠ [2020, 2021, 2022] := by
  decide

/-- C3: evaluating the deterministic path at the spec's scenario text: the
Year Locator yields `[20]` rather than `[2022]`, the balance sheet and the
ratios have no entry for 2022 at all, and the value pattern — which has no
thousands-separator support — reads "1,200" as 1 even when the label is
searched for directly in the raw text. -/
theorem scenario_extraction_diverges :
    (extractAllData scenarioText 2026).years = [20]
      ∧ lookupKey 2022 (extractAllData scenarioText 2026).balance_sheet = none
      ∧ lookupKey 2022 (extractAllData scenarioText 2026).ratios = none
      ∧ searchLabelNumber "Total Current Assets".data scenarioText.data = some 1 := by
  decide

/-- C4: at Net Income = 1000 and Total Revenue = 5000 the pipeline's ratio
engine `_calculate_financial_ratios` stores Net Profit Margin = 1/5 — the
plain quotient, not the percentage 20 the claim states — while the
`_calculate_ratio` helper in the same file, the one the repository's unit
test pins to 20.0, does multiply by 100. -/
theorem net_profit_margin_not_percentage :
    getNested (calcRatiosYear testBalanceSheet testIncomeStatement)
        "Profitability" "Net Profit Margin" = some (1 / 5)
      ∧ calcRatio "Net Profit Margin" testBalanceSheet testIncomeStatement = some 20
      ∧ ((1 : ℚ) / 5) ≠ 20 := by
  refine ⟨?_, ?_, by norm_num⟩
  · rw [ratiosYear_netProfitMargin]
    have h : netProfitMarginVal testIncomeStatement = some (1000 / 5000) := by
      simp [netProfitMarginVal, getNested, lookupKey, testIncomeStatement]
    rw [h]
    norm_num
  · have h : calcRatio "Net Profit Margin" testBalanceSheet testIncomeStatement
        = some (1000 / 5000 * 100) := by
      simp [calcRatio, getNested, lookupKey, testBalanceSheet, testIncomeStatement]
    rw [h]
    norm_num

/-- C5: in the pipeline's ratio engine every division-by-zero or
missing-operand case leaves the ratio unset — the per-year ratio dict lookup
yields `none`, the model of a null/absent value — never 0 and never an
exception; in particular a zero or missing Total Current Liabilities leaves
the Current Ratio (and the Quick Ratio) unset. -/
theorem ratio_null_propagation :
    ∀ bs istmt : YearData,
      ((getNested bs "Current Liabilities" "Total Current Liabilities" = none
          ∨ getNested bs "Current Liabilities" "Total Current Liabilities" = some 0) →
        getNested (calcRatiosYear bs istmt) "Liquidity" "Current Ratio" = none
          ∧ getNested (calcRatiosYear bs istmt) "Liquidity" "Quick Ratio" = none)
      ∧ (getNested bs "Current Assets" "Total Current Assets" = none →
          getNested (calcRatiosYear bs istmt) "Liquidity" "Current Ratio" = none
            ∧ getNested (calcRatiosYear bs istmt) "Liquidity" "Quick Ratio" = none)
      ∧ (getNested bs "Current Assets" "Inventory" = none →
          getNested (calcRatiosYear bs istmt) "Liquidity" "Quick Ratio" = none)
      ∧ ((getNested bs "Equity" "Total Equity" = none
          ∨ getNested bs "Equity" "Total Equity" = some 0) →
        getNested (calcRatiosYear bs istmt) "Solvency" "Debt-to-Equity Ratio" = none
          ∧ getNested (calcRatiosYear bs istmt) "Profitability" "Return on Equity" = none)
      ∧ (¬ 0 < totalAssetsVal bs →
          getNested (calcRatiosYear bs istmt) "Solvency" "Debt-to-Assets Ratio" = none
            ∧ getNested (calcRatiosYear bs istmt) "Profitability" "Return on Assets" = none)
      ∧ ((getNested istmt "Revenue" "Total Revenue" = none
          ∨ getNested istmt "Revenue" "Total Revenue" = some 0) →
        getNested (calcRatiosYear bs istmt) "Profitability" "Net Profit Margin" = none)
      ∧ (getNested istmt "Profit" "Net Income" = none →
          getNested (calcRatiosYear bs istmt) "Profitability" "Net Profit Margin" = none
            ∧ getNested (calcRatiosYear bs istmt) "Profitability" "Return on Assets" = none
            ∧ getNested (calcRatiosYear bs istmt) "Profitability" "Return on Equity" = none) := by
  intro bs istmt
  rw [ratiosYear_currentRatio, ratiosYear_quickRatio, ratiosYear_debtToEquity,
    ratiosYear_debtToAssets, ratiosYear_netProfitMargin,
    ratiosYear_returnOnAssets, ratiosYear_returnOnEquity]
  refine ⟨?_, ?_, ?_, ?_, ?_, ?_, ?_⟩
  · rintro (h | h) <;>
      rcases hca : getNested bs "Current Assets" "Total Current Assets" with _ | ca <;>
      rcases hinv : getNested bs "Current Assets" "Inventory" with _ | inv <;>
      simp [currentRatioVal, quickRatioVal, h, hca, hinv]
  · intro h
    rcases hcl : getNested bs "Current Liabilities" "Total Current Liabilities" with _ | cl <;>
      rcases hinv : getNested bs "Current Assets" "Inventory" with _ | inv <;>
      simp [currentRatioVal, quickRatioVal, h, hcl, hinv]
  · intro h
    rcases hca : getNested bs "Current Assets" "Total Current Assets" with _ | ca <;>
      rcases hcl : getNested bs "Current Liabilities" "Total Current Liabilities" with _ | cl <;>
      simp [quickRatioVal, h, hca, hcl]
  · rintro (h | h) <;>
      rcases hni : getNested istmt "Profit" "Net Income" with _ | ni <;>
      simp [debtToEquityVal, returnOnEquityVal, h, hni]
  · intro h
    rcases hni : getNested istmt "Profit" "Net Income" with _ | ni <;>
      simp [debtToAssetsVal, returnOnAssetsVal, h, hni]
  · rintro (h | h) <;>
      rcases hni : getNested istmt "Profit" "Net Income" with _ | ni <;>
      simp [netProfitMarginVal, h, hni]
  · intro h
    rcases htr : getNested istmt "Revenue" "Total Revenue" with _ | tr <;>
      rcases hte : getNested bs "Equity" "Total Equity" with _ | te <;>
      simp [netProfitMarginVal, returnOnAssetsVal, returnOnEquityVal, h, htr, hte]

/-- C5 witness: on an empty balance sheet the Total Current Liabilities
operand is missing and the Current Ratio is indeed unset. -/
theorem ratio_null_propagation_witness :
    getNested ([] : YearData) "Current Liabilities" "Total Current Liabilities" = none
      ∧ getNested (calcRatiosYear [] []) "Liquidity" "Current Ratio" = none :=
  ⟨by decide, ((ratio_null_propagation [] []).1 (Or.inl (by decide))).1⟩

/-- C6 counterexample: with both liability line items missing and Total
Equity present and nonzero (2000), the pipeline stores no Debt-to-Equity
Ratio at all — the claimed value 0 is not produced; the ratio is null. -/
theorem debt_to_equity_zero_liabilities_is_null :
    getNested equityOnlyBS "Equity" "Total Equity" = some 2000
      ∧ getNested (calcRatiosYear equityOnlyBS []) "Solvency" "Debt-to-Equity Ratio"
          = none := by
  refine ⟨rfl, ?_⟩
  rw [ratiosYear_debtToEquity]
  simp [debtToEquityVal, totalLiabilitiesVal, getNested, lookupKey, equityOnlyBS]

/-- C6 amended: Debt-to-Equity is (Total Current Liabilities + Total
Non-Current Liabilities) / Total Equity with each missing liability operand
treated as 0, and the ratio is null when Total Equity is missing or zero or
when that combined liability total is not strictly positive, and is set to
the quotient otherwise; in particular, when both liability items are missing
the combined total is 0 and the ratio is null even when equity is present
and nonzero. -/
theorem debt_to_equity_characterization :
    ∀ (bs istmt : YearData) (te : ℚ),
      (getNested bs "Equity" "Total Equity" = some te → te ≠ 0 →
        0 < totalLiabilitiesVal bs →
        getNested (calcRatiosYear bs istmt) "Solvency" "Debt-to-Equity Ratio"
          = some (totalLiabilitiesVal bs / te))
      ∧ (¬ 0 < totalLiabilitiesVal bs →
          getNested (calcRatiosYear bs istmt) "Solvency" "Debt-to-Equity Ratio"
            = none)
      ∧ ((getNested bs "Equity" "Total Equity" = none
          ∨ getNested bs "Equity" "Total Equity" = some 0) →
        getNested (calcRatiosYear bs istmt) "Solvency" "Debt-to-Equity Ratio"
          = none) := by
  intro bs istmt te
  rw [ratiosYear_debtToEquity]
  refine ⟨?_, ?_, ?_⟩
  · intro h1 h2 h3
    simp [debtToEquityVal, h1, h2, h3]
  · intro h
    rcases hte : getNested bs "Equity" "Total Equity" with _ | e <;>
      simp [debtToEquityVal, hte, h]
  · rintro (h | h) <;> simp [debtToEquityVal, h]

/-- C6 amended witness: on the unit-test balance sheet the combined liability
total is 2000 and equity is 2000, so the ratio is set and equals 1. -/
theorem debt_to_equity_characterization_witness :
    getNested (calcRatiosYear testBalanceSheet []) "Solvency" "Debt-to-Equity Ratio"
      = some 1 := by
  have htl : totalLiabilitiesVal testBalanceSheet = 2000 := by
    have h : totalLiabilitiesVal testBalanceSheet = 500 + 1500 := by
      simp [totalLiabilitiesVal, getNested, lookupKey, testBalanceSheet]
    rw [h]
    norm_num
  have h := (debt_to_equity_characterization testBalanceSheet [] 2000).1 rfl
    (by norm_num) (by rw [htl]; norm_num)
  rw [h, htl]
  norm_num

/-- C7 counterexample: for the text "Year 2022." the Year Locator yields
[20], and the balance sheet's entry for that year has a "Current Assets"
category containing no line-item keys at all instead of the taxonomy's five
names — null results are omitted, not stored. -/
theorem sparse_document_missing_item_keys :
    (extractAllData "Year 2022." 2026).years = [20]
      ∧ (lookupKey 20 (extractAllData "Year 2022." 2026).balance_sheet).map
          (fun d => (lookupKey "Current Assets" d).map (fun items => items.map Prod.fst))
        = some (some [])
      ∧ currentAssetItems ≠ [] := by
  decide

/-- C7 amended: every section builder stores an entry for each taxonomy
category — the per-year mapping's keys are exactly the category names — and
within a category a line-item name appears as a key exactly when the
Contextual Value Extractor found a value for it; null results are omitted
rather than stored. -/
theorem section_builder_shape :
    ∀ (tax : List (String × List String)) (text : String) (year : Nat),
      (buildYearSection tax text year).map Prod.fst = tax.map Prod.fst
        ∧ ∀ cat names, (cat, names) ∈ tax →
            ∃ items, (cat, items) ∈ buildYearSection tax text year
              ∧ ∀ n, n ∈ items.map Prod.fst
                  ↔ n ∈ names ∧ (extractValueForItem text year n).isSome :=
  fun tax text year =>
    ⟨buildYearSection_category_keys tax text year,
     fun cat names hmem => buildYearSection_item_keys tax text year cat names hmem⟩

/-- C7 amended witness: on a text whose located year has a context, the
"Current Assets" category of the balance-sheet builder carries exactly the
found items as keys. -/
theorem section_builder_shape_witness :
    ("Current Assets", currentAssetItems) ∈ balanceSheetTaxonomy
      ∧ ∃ items,
          (("Current Assets", items)
              ∈ buildYearSection balanceSheetTaxonomy "In 2022 results. 20 Total Current Assets 1200." 20)
            ∧ ∀ n, n ∈ items.map Prod.fst
                ↔ n ∈ currentAssetItems
                  ∧ (extractValueForItem "In 2022 results. 20 Total Current Assets 1200." 20 n).isSome :=
  ⟨by decide,
   (section_builder_shape balanceSheetTaxonomy
      "In 2022 results. 20 Total Current Assets 1200." 20).2
     "Current Assets" currentAssetItems (by decide)⟩

/-- C8: every year the Year Locator returns has an entry in the balance
sheet, the income statement, the cash flow and the ratio set of the
deterministic result — a located year never disappears in a later stage. -/
theorem located_years_persist :
    ∀ (text : String) (cy : Nat) (y : Nat),
      y ∈ (extractAllData text cy).years →
      (lookupKey y (extractAllData text cy).balance_sheet).isSome = true
        ∧ (lookupKey y (extractAllData text cy).income_statement).isSome = true
        ∧ (lookupKey y (extractAllData text cy).cash_flow).isSome = true
        ∧ (lookupKey y (extractAllData text cy).ratios).isSome = true := by
  intro text cy y hy
  rw [extractAllData_years] at hy
  rw [extractAllData_balance_sheet, extractAllData_income_statement,
    extractAllData_cash_flow, extractAllData_ratios]
  exact ⟨lookupKey_map_fst_self _ (fun z => rfl) _ y hy,
    lookupKey_map_fst_self _ (fun z => rfl) _ y hy,
    lookupKey_map_fst_self _ (fun z => rfl) _ y hy,
    lookupKey_map_fst_self _ (fun z => rfl) _ y hy⟩

/-- C8 witness: the located year 20 of "a 2020 b" has a balance-sheet
entry. -/
theorem located_years_persist_witness :
    20 ∈ (extractAllData "a 2020 b" 2026).years
      ∧ (lookupKey 20 (extractAllData "a 2020 b" 2026).balance_sheet).isSome = true :=
  ⟨by decide, (located_years_persist "a 2020 b" 2026 20 (by decide)).1⟩

/-- C9 counterexample: on an oracle whose response is a schema-valid JSON
object without a "ratios" key, `extract_data_with_llm` succeeds and returns
that object as-is, so its result has only the four required top-level keys,
not all five. -/
theorem llm_success_can_omit_ratios_key :
    (extractDataWithLLM llmGen llmDecode ["google"] "text" 2026 none).map Prod.fst
      = ["years", "balance_sheet", "income_statement", "cash_flow"] := by
  decide

/-- C9 amended: the deterministic result always carries exactly the five
keys years, balance_sheet, income_statement, cash_flow, ratios, and so does
every fallback path of `extract_data_with_llm`; on the LLM-success path the
result is the schema-validated object, which is guaranteed only the four
required keys — a validated response without "ratios" is returned without
it. -/
theorem extraction_result_keys :
    (∀ (text : String) (cy : Nat),
        (resultToObj (extractAllData text cy)).map Prod.fst
          = ["years", "balance_sheet", "income_statement", "cash_flow", "ratios"])
      ∧ (∀ (gen : Option String → String → Except Unit String)
            (decode : String → Option Obj) (avail : List String) (text : String)
            (cy : Nat) (provider : Option String),
          (∀ p q, gen p q = Except.error ()) →
          (extractDataWithLLM gen decode avail text cy provider).map Prod.fst
            = ["years", "balance_sheet", "income_statement", "cash_flow", "ratios"])
      ∧ (∀ (gen : Option String → String → Except Unit String)
            (decode : String → Option Obj) (avail : List String) (text : String)
            (cy : Nat) (provider : Option String),
          (extractDataWithLLM gen decode avail text cy provider).map Prod.fst
              = ["years", "balance_sheet", "income_statement", "cash_flow", "ratios"]
            ∨ validateFinancialData
                (extractDataWithLLM gen decode avail text cy provider) = true) := by
  refine ⟨fun text cy => rfl, ?_, ?_⟩
  · intro gen decode avail text cy provider hfail
    show (extractDataWithLLMGo gen decode avail text cy 2 provider).map Prod.fst = _
    rw [extractDataWithLLMGo, hfail]
    rfl
  · intro gen decode avail text cy provider
    rcases extractDataWithLLMGo_cases gen decode avail text cy 2 provider with h | h
    · left
      show (extractDataWithLLMGo gen decode avail text cy 2 provider).map Prod.fst = _
      rw [h]
      rfl
    · right
      exact h

/-- C9 amended witness: with an always-failing completion oracle the result
carries all five keys. -/
theorem extraction_result_keys_witness :
    (extractDataWithLLM (fun _ _ => Except.error ()) llmDecode [] "t" 2026 none).map
        Prod.fst
      = ["years", "balance_sheet", "income_statement", "cash_flow", "ratios"] :=
  extraction_result_keys.2.1 (fun _ _ => Except.error ()) llmDecode [] "t" 2026 none
    (fun _ _ => rfl)

/-- C10: schema validation requires only the four keys years, balance_sheet,
income_statement, cash_flow (years a list, the three sections dicts) and
reads nothing but those four lookups — never a "ratios" key — and a response
that parses and validates is returned by `extract_data_with_llm` as-is, with
no ratio recomputation; when the validated object lacks "ratios" the parser
sets the instance's ratios accumulator to the empty dict. -/
theorem validated_llm_response_returned_as_is :
    ∀ (gen : Option String → String → Except Unit String)
      (decode : String → Option Obj) (avail : List String) (text : String)
      (cy : Nat) (provider : Option String) (resp s : String) (kvs : Obj),
      gen provider (createExtractionPrompt text) = Except.ok resp →
      findJsonSubstring resp = some s →
      decode s = some kvs →
      validateFinancialData kvs = true →
      extractDataWithLLM gen decode avail text cy provider = kvs
        ∧ (∀ kvs2 : Obj,
            (∀ k, k ∈ requiredKeys → lookupKey k kvs2 = lookupKey k kvs) →
            validateFinancialData kvs2 = true)
        ∧ (lookupKey "ratios" kvs = none →
            ratiosStateAfterParse kvs = JVal.obj []) := by
  intro gen decode avail text cy provider resp s kvs h1 h2 h3 h4
  refine ⟨?_, ?_, ?_⟩
  · show extractDataWithLLMGo gen decode avail text cy 2 provider = kvs
    have hparse : parseLLMResponse decode resp = some kvs := by
      simp [parseLLMResponse, h2, h3, h4]
    rw [extractDataWithLLMGo, h1]
    simp [hparse, h4]
  · intro kvs2 h
    have hy := h "years" (by decide)
    have hb := h "balance_sheet" (by decide)
    have hi := h "income_statement" (by decide)
    have hc := h "cash_flow" (by decide)
    rw [validateFinancialData] at h4 ⊢
    rw [requiredKeys] at h4 ⊢
    simp only [List.all_cons, List.all_nil, hy, hb, hi, hc] at h4 ⊢
    exact h4
  · intro h
    rw [ratiosStateAfterParse, h]

/-- C10 witness: a four-key validated response is returned as-is and the
ratios accumulator defaults to the empty dict. -/
theorem validated_llm_response_returned_as_is_witness :
    extractDataWithLLM llmGen llmDecode ["google"] "text" 2026 none = llmFourKeyObj
      ∧ ratiosStateAfterParse llmFourKeyObj = JVal.obj [] := by
  have h := validated_llm_response_returned_as_is llmGen llmDecode ["google"] "text"
    2026 none llmJsonResponse llmJsonResponse llmFourKeyObj rfl (by decide)
    (by simp [llmDecode]) (by decide)
  exact ⟨h.1, h.2.2 (by rfl)⟩


end CreditLense
